import Mathlib

/-
  Verification development for the scxrelay repository
  (Steam Controller xpad relay: scxrelay.c, minrelay.c).

  Shallow embedding: the C sources are translated into pure Lean
  definitions.  Kernel interactions (ioctl, open, read, write, poll,
  signals) are modelled through explicit environment records that carry
  the results the kernel would return; the program logic that consumes
  those results is translated statement by statement from the source.
-/

namespace SCX

/- ## Linux input-subsystem constants (linux/input.h, linux/uinput.h) -/

/-- EV_KEY event type (linux/input-event-codes.h). -/
def EV_KEY : Nat := 1

/-- EV_ABS event type. -/
def EV_ABS : Nat := 3

/-- EV_CNT = EV_MAX + 1 = 0x1f + 1. -/
def EV_CNT : Nat := 32

/-- ABS_CNT = ABS_MAX + 1 = 0x3f + 1. -/
def ABS_CNT : Nat := 64

/-- KEY_CNT = KEY_MAX + 1 = 0x2ff + 1. -/
def KEY_CNT : Nat := 768

/-- NBV_EV from scxrelay.c line 146: 1 + EV_CNT/8 = 5 bytes. -/
def NBV_EV : Nat := 1 + EV_CNT / 8

/-- NBV_ABS from scxrelay.c line 147: 1 + ABS_CNT/8 = 9 bytes. -/
def NBV_ABS : Nat := 1 + ABS_CNT / 8

/-- NBV_KEY from scxrelay.c line 148: 1 + KEY_CNT/8 = 97 bytes. -/
def NBV_KEY : Nat := 1 + KEY_CNT / 8

/-- sizeof(struct input_event) on a 64-bit SteamOS target. -/
def evsize : Nat := 24

/-- BUS_VIRTUAL (linux/input.h). -/
def BUS_VIRTUAL : Nat := 6

/-- scxrelay.c line 85: unofficial FOSS vendor id. -/
def SCXRELAY_VENDORID : Nat := 0xF055

/-- scxrelay.c line 86: Steam Controller xpad product id. -/
def SCXRELAY_PRODUCTID : Nat := 0x11fc

/-- scxrelay.c line 84. -/
def SCXRELAY_MODELREV : Nat := 1

/-- scxrelay.c line 83. -/
def SCXRELAY_MODELNAME : String := "Xpad Relay (SteamController)"

/-- The single filtered button code (scxrelay.c line 330: ev.code == 10). -/
def FILTERED_CODE : Nat := 10

/-- Global log threshold (scxrelay.c line 102), zero and never changed. -/
def logthreshold : Int := 0

/-- logmsg (scxrelay.c lines 104-125): emits its message exactly when the
level is above the threshold. -/
def logmsg (loglevel : Int) (msg : String) : List String :=
  if loglevel > logthreshold then [msg] else []

/- ## Data model -/

/-- struct input_event: an opaque fixed-size record; only type and code are
ever inspected (by the filter). -/
structure InputEvent where
  time_sec : Int
  time_usec : Int
  type : Nat
  code : Nat
  value : Int
deriving DecidableEq

/-- enum scxstate_e (scxrelay.c lines 92-98). -/
inductive ScxState
  | SCXSTATE_INIT
  | SCXSTATE_STEADY
  | SCXSTATE_FAILED
  | SCXSTATE_HALT
deriving DecidableEq

/-- struct input_absinfo: the fields the relay reads (minimum, maximum,
fuzz, flat). -/
structure AbsInfo where
  minimum : Int
  maximum : Int
  fuzz : Int
  flat : Int
deriving DecidableEq

/-- struct uinput_user_dev: the fields the relay writes.  The per-axis
calibration arrays have ABS_CNT entries. -/
structure Uidev where
  name : String
  bustype : Nat
  vendor : Nat
  product : Nat
  version : Nat
  absmin : List Int
  absmax : List Int
  absfuzz : List Int
  absflat : List Int
deriving DecidableEq

/-- An all-zero uinput_user_dev (result of the memset in scxrelay.c
line 265). -/
def Uidev.zero : Uidev :=
  { name := ""
    bustype := 0
    vendor := 0
    product := 0
    version := 0
    absmin := List.replicate ABS_CNT 0
    absmax := List.replicate ABS_CNT 0
    absfuzz := List.replicate ABS_CNT 0
    absflat := List.replicate ABS_CNT 0 }

/-- struct scxrelay_s (scxrelay.c lines 140-156): the global run-time
state.  Bit vectors are byte lists (index = nbyte, each byte < 256). -/
structure ScxRelay where
  state : ScxState
  srcfd : Int
  uinputfd : Int
  have_ev : List Nat
  have_abs : List Nat
  have_key : List Nat
  uidev : Uidev
  event_path : String
  uinput_path : String
  filter_sysbutton : Int
deriving DecidableEq

/-- scxrelay_init (scxrelay.c lines 166-173): memset to zero, then
srcfd = uinputfd = -1 and uinput_path = "/dev/uinput". -/
def scxrelay_init : ScxRelay :=
  { state := .SCXSTATE_INIT
    srcfd := -1
    uinputfd := -1
    have_ev := List.replicate NBV_EV 0
    have_abs := List.replicate NBV_ABS 0
    have_key := List.replicate NBV_KEY 0
    uidev := Uidev.zero
    event_path := ""
    uinput_path := "/dev/uinput"
    filter_sysbutton := 0 }

/- ## Bit-vector traversal -/

/-- FOREACH_SET_BIT of scxrelay.c lines 185-188: the sequence of indices
idx = nbyte*8 + nbit, byte-major then bit-minor, for which the bit is set,
over the first `bytecount` bytes.  The index counter is advanced by the
loop headers themselves, so every set bit is visited. -/
def scxSetBits (bv : List Nat) (bytecount : Nat) : List Nat :=
  (List.range bytecount).flatMap (fun nbyte =>
    (List.range 8).filterMap (fun nbit =>
      if (bv.getD nbyte 0).testBit nbit then some (nbyte * 8 + nbit) else none))

/-- FOREACH_SET_BIT of minrelay.c lines 127-130: the body executes only
when `(bv[nbyte] & (1 << nbit)) && ((idxvar = nbyte*8 + nbit))` is true;
the second conjunct is the assigned index itself, so index 0 is skipped. -/
def minSetBits (bv : List Nat) (bytecount : Nat) : List Nat :=
  (List.range bytecount).flatMap (fun nbyte =>
    (List.range 8).filterMap (fun nbit =>
      if (bv.getD nbyte 0).testBit nbit && (nbyte * 8 + nbit != 0) then
        some (nbyte * 8 + nbit)
      else none))

/-- One registration ioctl issued against the uinput fd. -/
inductive RegCall
  | setEvBit (code : Nat)
  | setAbsBit (code : Nat)
  | setKeyBit (code : Nat)
deriving DecidableEq

/-- Result of one EVIOCGBIT query: the ioctl return value `res` and the
bytes written into the caller buffer (meaningful when res > 0). -/
structure QueryResult where
  res : Int
  bytes : List Nat
deriving DecidableEq

/-- Overwrite the first bytes of `old` with `newb` (a kernel copy_to_user
of `newb.length` bytes into the buffer `old`). -/
def writeBytes (old newb : List Nat) : List Nat :=
  newb ++ old.drop newb.length

/-- scxrelay_register_features_by_code (scxrelay.c lines 176-222):
queries the three bit-vectors and, for each query with positive result,
replays every set bit of the first `res` bytes as a registration call.
Returns the updated state (buffers filled) and the issued calls, in
order. -/
def scxrelay_register_features_by_code (s : ScxRelay)
    (qev qabs qkey : QueryResult) : ScxRelay × List RegCall :=
  let h1 := if 0 < qev.res then writeBytes s.have_ev (qev.bytes.take qev.res.toNat)
            else s.have_ev
  let c1 := if 0 < qev.res then (scxSetBits h1 qev.res.toNat).map RegCall.setEvBit
            else []
  let h2 := if 0 < qabs.res then writeBytes s.have_abs (qabs.bytes.take qabs.res.toNat)
            else s.have_abs
  let c2 := if 0 < qabs.res then (scxSetBits h2 qabs.res.toNat).map RegCall.setAbsBit
            else []
  let h3 := if 0 < qkey.res then writeBytes s.have_key (qkey.bytes.take qkey.res.toNat)
            else s.have_key
  let c3 := if 0 < qkey.res then (scxSetBits h3 qkey.res.toNat).map RegCall.setKeyBit
            else []
  ({ s with have_ev := h1, have_abs := h2, have_key := h3 }, c1 ++ c2 ++ c3)

/-- scxrelay_register_features_by_code of minrelay.c (lines 118-164):
same structure, but the bit traversal is minrelay's FOREACH_SET_BIT,
whose guard treats index 0 as false.  The global buffers start zeroed,
so only the issued calls are returned. -/
def minrelay_register_features_by_code (qev qabs qkey : QueryResult) : List RegCall :=
  (if 0 < qev.res then (minSetBits qev.bytes qev.res.toNat).map RegCall.setEvBit else [])
  ++ (if 0 < qabs.res then (minSetBits qabs.bytes qabs.res.toNat).map RegCall.setAbsBit else [])
  ++ (if 0 < qkey.res then (minSetBits qkey.bytes qkey.res.toNat).map RegCall.setKeyBit else [])

/- ## Kernel-visible side effects other than registration calls -/

/-- Syscalls with side effects recorded by the model, other than event
writes and registration calls. -/
inductive Action
  | openAttempt (path : String)
  | sleep100
  | sleep200
  | closeSrc
  | devWriteDesc
  | devCreate
  | devDestroy
deriving DecidableEq

/- ## scxrelay_connect -/

/-- Environment for scxrelay_connect: the values the kernel returns for
each syscall the function can issue.  open returns a negative value on
failure; regRes gives the result of each UI_SET_* ioctl; absRes gives the
result and the filled input_absinfo of EVIOCGABS(idx). -/
structure ConnectEnv where
  openSrcRW : Int
  openSrcRO : Int
  openUinput : Int
  qev : QueryResult
  qabs : QueryResult
  qkey : QueryResult
  regRes : RegCall → Int
  absRes : Nat → Int × AbsInfo
  writeDescRes : Int
  createRes : Int

/-- Outcome of scxrelay_connect: `ok` (returned 0) with the resulting
state, issued registration calls, other actions and log output;
`err` (returned -1 after a perror); `died` (process exit(EXIT_FAILURE)
via die_on_negative). -/
inductive COut
  | ok (s : ScxRelay) (calls : List RegCall) (acts : List Action) (logs : List String)
  | err (s : ScxRelay) (logs : List String)
  | died (logs : List String)

/-- Copy source calibration of axis `idx` into the descriptor
(scxrelay.c lines 278-281). -/
def applyAbs (u : Uidev) (idx : Nat) (info : AbsInfo) : Uidev :=
  { u with
    absmin := u.absmin.set idx info.minimum
    absmax := u.absmax.set idx info.maximum
    absfuzz := u.absfuzz.set idx info.fuzz
    absflat := u.absflat.set idx info.flat }

/-- scxrelay_connect (scxrelay.c lines 226-295).  Opens the source device
(read-write, then read-only) if not already open, opens the uinput device
if not already open, registers features, builds the descriptor, copies
axis calibration for the set bits of the first NBV_EV bytes of have_abs
(the source's loop bound at line 272), writes the descriptor and issues
UI_DEV_CREATE.  Any die_on_negative-wrapped failure yields `died`. -/
def scxrelay_connect (s : ScxRelay) (env : ConnectEnv) : COut :=
  let srcfd1 := if s.srcfd < 0 then env.openSrcRW else s.srcfd
  let srcfd2 := if srcfd1 < 0 then env.openSrcRO else srcfd1
  if srcfd2 < 0 then .err { s with srcfd := srcfd2 } [s.event_path]
  else
    let s1 := { s with srcfd := srcfd2 }
    let uifd := if s1.uinputfd < 0 then env.openUinput else s1.uinputfd
    if uifd < 0 then .err { s1 with uinputfd := uifd } [s1.uinput_path]
    else
      let s2 := { s1 with uinputfd := uifd }
      let rf := scxrelay_register_features_by_code s2 env.qev env.qabs env.qkey
      if rf.2.any (fun c => decide (env.regRes c < 0)) then .died ["ERROR"]
      else
        let uid0 : Uidev :=
          { Uidev.zero with
            name := SCXRELAY_MODELNAME
            bustype := BUS_VIRTUAL
            vendor := SCXRELAY_VENDORID
            product := SCXRELAY_PRODUCTID
            version := SCXRELAY_MODELREV }
        let calibIdx := scxSetBits rf.1.have_abs NBV_EV
        if calibIdx.any (fun idx => decide ((env.absRes idx).1 < 0)) then .died ["ERROR"]
        else
          let uid1 := calibIdx.foldl (fun u idx => applyAbs u idx (env.absRes idx).2) uid0
          if env.writeDescRes < 0 then .died ["ERROR"]
          else if env.createRes < 0 then .died ["ERROR"]
          else .ok { rf.1 with uidev := uid1 } rf.2 [.devWriteDesc, .devCreate] []

/-- Projection: did scxrelay_connect return 0? -/
def COut.isOk : COut → Bool
  | .ok _ _ _ _ => true
  | _ => false

/-- Projection: registration calls of a successful connect. -/
def COut.calls : COut → List RegCall
  | .ok _ calls _ _ => calls
  | _ => []

/-- Projection: resulting state of a successful connect. -/
def COut.okState : COut → Option ScxRelay
  | .ok s _ _ _ => some s
  | _ => none

/-- Projection: log output of a connect. -/
def COut.logs : COut → List String
  | .ok _ _ _ logs => logs
  | .err _ logs => logs
  | .died logs => logs

/-- Projection: other recorded actions of a successful connect. -/
def COut.acts : COut → List Action
  | .ok _ _ acts _ => acts
  | _ => []

/-- scxrelay_disconnect (scxrelay.c lines 299-305): issues UI_DEV_DESTROY
and returns the ioctl result; it prints nothing and cannot terminate the
process. -/
def scxrelay_disconnect (destroyRes : Int) : Int × List String :=
  (destroyRes, [])

/- ## Event copying and the relay loop -/

/-- Outcome of the read(2) in scxrelay_copy_event: a complete record, a
zero-byte end-of-stream, an error (with or without errno == EINTR), or a
short count n with 0 < n < evsize. -/
inductive ReadOutcome
  | full (ev : InputEvent)
  | eof
  | rdError (eintr : Bool)
  | short (n : Nat)
deriving DecidableEq

/-- The filter test of scxrelay_copy_event (scxrelay.c lines 327-332):
filter_sysbutton is truthy and the record is (EV_KEY, code 10). -/
def sysButtonFiltered (f : Int) (ev : InputEvent) : Bool :=
  (f != 0) && (ev.type == EV_KEY) && (ev.code == FILTERED_CODE)

/-- Result of one scxrelay_copy_event call: records written, log output,
the state field afterwards, and whether die_on_negative fired (write
failure). -/
structure CopyOut where
  writes : List InputEvent
  logs : List String
  state : ScxState
  died : Bool
deriving DecidableEq

/-- scxrelay_copy_event (scxrelay.c lines 316-355).  A complete record is
written unless filtered (silently dropped); zero bytes sets HALT; a
negative read sets HALT, logging unless errno is EINTR; a short read logs
and sets HALT. -/
def scxrelay_copy_event (s : ScxRelay) (r : ReadOutcome) (writeRes : Int) : CopyOut :=
  match r with
  | .full ev =>
    if sysButtonFiltered s.filter_sysbutton ev then
      { writes := [], logs := [], state := s.state, died := false }
    else if writeRes < 0 then
      { writes := [], logs := ["ERROR"], state := s.state, died := true }
    else
      { writes := [ev], logs := [], state := s.state, died := false }
  | .eof =>
    { writes := [], logs := [], state := .SCXSTATE_HALT, died := false }
  | .rdError eintr =>
    { writes := []
      logs := if eintr then [] else ["Reading from source device file"]
      state := .SCXSTATE_HALT
      died := false }
  | .short _ =>
    { writes := []
      logs := logmsg 1 "Partial read from source device file"
      state := .SCXSTATE_HALT
      died := false }

/-- What poll(2) reported for the single source fd: a timeout (or an
interrupted poll, res <= 0), or revents with POLLIN / POLLERR flags; when
POLLIN is set, `r` is the outcome of the subsequent read and `writeRes`
the result of the subsequent write (used only for a complete unfiltered
record). -/
inductive PollResult
  | timeout
  | ready (pin perr : Bool) (r : ReadOutcome) (writeRes : Int)

/-- Input of one main-loop iteration: whether SIGINT is delivered during
the iteration's blocking call (the handler then sets state = HALT and the
interrupted iteration has no further effect), the poll result (STEADY
state), and the result of open(event_path, O_RDWR) (FAILED state). -/
structure LoopInput where
  sig : Bool
  poll : PollResult
  openRes : Int

/-- Result of one main-loop iteration. -/
structure StepOut where
  s : ScxRelay
  writes : List InputEvent
  logs : List String
  acts : List Action
  died : Bool

/-- One iteration of the main loop body (scxrelay.c lines 377-437).
STEADY: poll; on POLLIN run scxrelay_copy_event; on POLLERR print, close
the source fd and set FAILED (after the copy, as in the source).  FAILED:
if event_path is non-empty, srcfd := open(event_path, O_RDWR); on failure
sleep 100ms, on success print and set STEADY; with an empty path just
sleep 200ms.  INIT does nothing.  SIGINT forces state = HALT. -/
def scxrelay_step (s : ScxRelay) (inp : LoopInput) : StepOut :=
  if inp.sig then
    { s := { s with state := .SCXSTATE_HALT }, writes := [], logs := [], acts := [], died := false }
  else
    match s.state with
    | .SCXSTATE_INIT =>
      { s := s, writes := [], logs := [], acts := [], died := false }
    | .SCXSTATE_STEADY =>
      match inp.poll with
      | .timeout =>
        { s := s, writes := [], logs := [], acts := [], died := false }
      | .ready pin perr r writeRes =>
        let c := if pin then scxrelay_copy_event s r writeRes
                 else { writes := [], logs := [], state := s.state, died := false }
        let s1 := { s with state := c.state }
        if c.died then
          { s := s1, writes := c.writes, logs := c.logs, acts := [], died := true }
        else if perr then
          { s := { s1 with state := .SCXSTATE_FAILED }
            writes := c.writes
            logs := c.logs ++ ["Error in fd"]
            acts := [.closeSrc]
            died := false }
        else
          { s := s1, writes := c.writes, logs := c.logs, acts := [], died := false }
    | .SCXSTATE_FAILED =>
      if s.event_path ≠ "" then
        if inp.openRes < 0 then
          { s := { s with srcfd := inp.openRes }
            writes := [], logs := []
            acts := [.openAttempt s.event_path, .sleep100]
            died := false }
        else
          { s := { s with srcfd := inp.openRes, state := .SCXSTATE_STEADY }
            writes := [], logs := ["Recovered"]
            acts := [.openAttempt s.event_path]
            died := false }
      else
        { s := s, writes := [], logs := [], acts := [.sleep200], died := false }
    | .SCXSTATE_HALT =>
      { s := s, writes := [], logs := [], acts := [], died := false }

/-- Accumulated result of running the main loop on a list of iteration
inputs. -/
structure RunOut where
  s : ScxRelay
  writes : List InputEvent
  logs : List String
  acts : List Action
  died : Bool

/-- The while loop of scxrelay_mainloop (scxrelay.c lines 374-438):
consume iteration inputs while state is not HALT; stop consuming at HALT
or when die_on_negative fires. -/
def scxrelay_runLoop (s : ScxRelay) : List LoopInput → RunOut
  | [] => { s := s, writes := [], logs := [], acts := [], died := false }
  | i :: is =>
    if s.state = .SCXSTATE_HALT then
      { s := s, writes := [], logs := [], acts := [], died := false }
    else
      let o := scxrelay_step s i
      if o.died then
        { s := o.s, writes := o.writes, logs := o.logs, acts := o.acts, died := true }
      else
        let r := scxrelay_runLoop o.s is
        { s := r.s
          writes := o.writes ++ r.writes
          logs := o.logs ++ r.logs
          acts := o.acts ++ r.acts
          died := r.died }

/-- scxrelay_mainloop (scxrelay.c lines 360-443): installs the SIGINT
handler, sets state = STEADY and runs the while loop. -/
def scxrelay_mainloop (s : ScxRelay) (inps : List LoopInput) : RunOut :=
  scxrelay_runLoop { s with state := .SCXSTATE_STEADY } inps

/- ## Process shell -/

/-- Result of the whole process run: the exit status if the process
exited within the modelled inputs (none while the loop is still running),
plus all observable output. -/
structure ProcOut where
  exit : Option Nat
  writes : List InputEvent
  logs : List String
  acts : List Action

/-- The argument / descriptor handling of main (scxrelay.c lines
487-527): with no arguments, probe fds 3 and 4, recording path "-" for a
pre-opened descriptor, and fail with usage if no source was found; with
arguments, take the paths from argv.  Returns none for the usage +
EXIT_FAILURE path. -/
def scxmain_setup (args : List String) (fd3open fd4open : Bool) : Option ScxRelay :=
  let s := scxrelay_init
  if args.length < 1 then
    let s := if fd3open then { s with srcfd := 3, event_path := "-" } else s
    let s := if fd4open then { s with uinputfd := 4, uinput_path := "-" } else s
    if s.srcfd = -1 then none else some s
  else
    let s := { s with event_path := args.getD 0 "" }
    let s := if 2 ≤ args.length then { s with uinput_path := args.getD 1 "" } else s
    some s

/-- main + scxrelay_main (scxrelay.c lines 447-462 and 487-532): resolve
startup inputs; connect; on success run the main loop, then issue the
best-effort disconnect (result discarded) and exit EXIT_SUCCESS; a
connect error or any die_on_negative exit yields EXIT_FAILURE. -/
def scxmain (args : List String) (fd3open fd4open : Bool) (cenv : ConnectEnv)
    (inps : List LoopInput) (destroyRes : Int) : ProcOut :=
  match scxmain_setup args fd3open fd4open with
  | none => { exit := some 1, writes := [], logs := ["usage"], acts := [] }
  | some s0 =>
    match scxrelay_connect s0 cenv with
    | .died logs => { exit := some 1, writes := [], logs := logs, acts := [] }
    | .err _ logs => { exit := some 1, writes := [], logs := logs, acts := [] }
    | .ok s1 _ acts logs =>
      let lo := scxrelay_mainloop s1 inps
      if lo.died then
        { exit := some 1, writes := lo.writes, logs := logs ++ lo.logs, acts := acts ++ lo.acts }
      else if lo.s.state = .SCXSTATE_HALT then
        let d := scxrelay_disconnect destroyRes
        { exit := some 0
          writes := lo.writes
          logs := logs ++ lo.logs ++ d.2
          acts := acts ++ lo.acts ++ [.devDestroy] }
      else
        { exit := none, writes := lo.writes, logs := logs ++ lo.logs, acts := acts ++ lo.acts }

/- ## Auxiliary definitions used in the statements -/

/-- Is a registration call a UI_SET_EVBIT call? -/
def RegCall.isEvBit : RegCall → Bool
  | .setEvBit _ => true
  | _ => false

/-- Is a registration call a UI_SET_ABSBIT call? -/
def RegCall.isAbsBit : RegCall → Bool
  | .setAbsBit _ => true
  | _ => false

/-- Is a registration call a UI_SET_KEYBIT call? -/
def RegCall.isKeyBit : RegCall → Bool
  | .setKeyBit _ => true
  | _ => false

/-- A loop iteration in which poll reports POLLIN, the read returns one
complete record and the write succeeds. -/
def fullInput (ev : InputEvent) : LoopInput :=
  { sig := false, poll := .ready true false (.full ev) 0, openRes := -1 }

/-- A loop iteration interrupted by SIGINT. -/
def sigintInput : LoopInput :=
  { sig := true, poll := .timeout, openRes := -1 }

/- ## Concrete inputs used by witnesses and counterexamples -/

/-- A (EV_KEY, code 10) record: the code the optional filter targets. -/
def evKey10 : InputEvent :=
  { time_sec := 0, time_usec := 0, type := 1, code := 10, value := 1 }

/-- An unrelated axis record. -/
def evAxisSample : InputEvent :=
  { time_sec := 0, time_usec := 0, type := 3, code := 0, value := 5 }

/-- A connect environment whose source advertises exactly axis code 40
(byte 5, bit 0; the EVIOCGBIT(EV_ABS) query returns 6 bytes) with
calibration (1, 2, 3, 4); every other syscall succeeds. -/
def envAxis40 : ConnectEnv :=
  { openSrcRW := 5
    openSrcRO := -1
    openUinput := 6
    qev := ⟨0, []⟩
    qabs := ⟨6, [0, 0, 0, 0, 0, 1]⟩
    qkey := ⟨0, []⟩
    regRes := fun _ => 0
    absRes := fun _ => (0, ⟨1, 2, 3, 4⟩)
    writeDescRes := 0
    createRes := 0 }

/-- A connect environment in which every syscall succeeds and the source
advertises no capabilities at all. -/
def envPlain : ConnectEnv :=
  { openSrcRW := 5
    openSrcRO := -1
    openUinput := 6
    qev := ⟨0, []⟩
    qabs := ⟨0, []⟩
    qkey := ⟨0, []⟩
    regRes := fun _ => 0
    absRes := fun _ => (0, ⟨0, 0, 0, 0⟩)
    writeDescRes := 0
    createRes := 0 }

/-- The state after startup with no arguments and a pre-opened fd 3,
pushed into the FAILED state (as the POLLERR branch does). -/
def failedFdState : ScxRelay :=
  { ((scxmain_setup [] true false).getD scxrelay_init) with state := .SCXSTATE_FAILED }

/-- A STEADY state with the filter flag enabled. -/
def steadyFilterOn : ScxRelay :=
  { scxrelay_init with state := .SCXSTATE_STEADY, filter_sysbutton := 1 }

/-- A FAILED state with a real device path. -/
def failedPathState : ScxRelay :=
  { scxrelay_init with state := .SCXSTATE_FAILED, event_path := "/dev/input/event7", srcfd := 5, uinputfd := 6 }

/-- Startup state for a run given a device path argument. -/
def setupPathState : ScxRelay :=
  (scxmain_setup ["/dev/input/event7"] false false).getD scxrelay_init

/-- State after a successful connect from `setupPathState` under
`envPlain`. -/
def connectedState : ScxRelay :=
  (scxrelay_connect setupPathState envPlain).okState.getD scxrelay_init

/- ## Theorems -/

/-- C1: For every code set in any of the three capability bit-vectors
obtained from the source, exactly one registration call is issued in
ascending code order.  This fails in minrelay.c: its FOREACH_SET_BIT
guard conjoins the bit test with the assigned index value, so index 0 is
treated as false and code 0 is silently skipped, while scxrelay.c's
iteration (which advances the index in the loop header) does issue the
call.  Evaluated at a source advertising exactly code 0 of the
event-type class, and one advertising exactly code 0 of the axis class
(ABS_X). -/
theorem scxrelay_c1_minrelay_skips_code_zero :
    minrelay_register_features_by_code ⟨1, [1]⟩ ⟨0, []⟩ ⟨0, []⟩ = [] ∧
    minrelay_register_features_by_code ⟨0, []⟩ ⟨1, [1]⟩ ⟨0, []⟩ = [] ∧
    Nat.testBit 1 0 = true ∧
    (scxrelay_register_features_by_code scxrelay_init ⟨1, [1]⟩ ⟨0, []⟩ ⟨0, []⟩).2
      = [RegCall.setEvBit 0] ∧
    (scxrelay_register_features_by_code scxrelay_init ⟨0, []⟩ ⟨1, [1]⟩ ⟨0, []⟩).2
      = [RegCall.setAbsBit 0] := by
  decide

/-- C2: the descriptor calibration of every advertised axis should equal
the source calibration at activation.  This fails for axis codes 40-63:
the calibration loop of scxrelay_connect (scxrelay.c line 272) scans only
NBV_EV = 5 bytes of have_abs instead of NBV_ABS = 9, so axis 40 is
registered via UI_SET_ABSBIT but its calibration entries stay zero even
though the source reports (1, 2, 3, 4). -/
theorem scxrelay_c2_axis40_loses_calibration :
    (scxrelay_connect scxrelay_init envAxis40).isOk = true ∧
    RegCall.setAbsBit 40 ∈ (scxrelay_connect scxrelay_init envAxis40).calls ∧
    ((scxrelay_connect scxrelay_init envAxis40).okState.map
      (fun s => s.uidev.absmin.getD 40 0)) = some 0 ∧
    ((scxrelay_connect scxrelay_init envAxis40).okState.map
      (fun s => s.uidev.absmax.getD 40 0)) = some 0 ∧
    (envAxis40.absRes 40).2.minimum = 1 ∧
    (envAxis40.absRes 40).2.maximum = 2 := by
  decide

/-- C5 counterexample: the claim says a read error caused by EINTR is not
by itself a transition out of STEADY.  In scxrelay_copy_event the
`inst->state = SCXSTATE_HALT` assignment sits outside the
`errno != EINTR` test, so an EINTR read error also drives STEADY to HALT
(only the perror is suppressed). -/
theorem scxrelay_c5_eintr_also_halts :
    (scxrelay_step { scxrelay_init with state := .SCXSTATE_STEADY }
        { sig := false, poll := .ready true false (.rdError true) 0, openRes := -1 }).s.state
      = .SCXSTATE_HALT ∧
    (scxrelay_step { scxrelay_init with state := .SCXSTATE_STEADY }
        { sig := false, poll := .ready true false (.rdError true) 0, openRes := -1 }).logs
      = [] := by
  decide

/-- C5 (amended): in STEADY, a zero-byte read, a read error that is not
EINTR (logged), a partial read (logged), and also a read error that is
EINTR (silent) each set the state to HALT. -/
theorem scxrelay_c5_read_outcome_transitions (s : ScxRelay) (w : Int) (n : Nat)
    (h1 : 0 < n) (h2 : n < evsize) :
    scxrelay_copy_event s .eof w
      = { writes := [], logs := [], state := .SCXSTATE_HALT, died := false } ∧
    scxrelay_copy_event s (.rdError false) w
      = { writes := [], logs := ["Reading from source device file"],
          state := .SCXSTATE_HALT, died := false } ∧
    scxrelay_copy_event s (.rdError true) w
      = { writes := [], logs := [], state := .SCXSTATE_HALT, died := false } ∧
    scxrelay_copy_event s (.short n) w
      = { writes := [], logs := ["Partial read from source device file"],
          state := .SCXSTATE_HALT, died := false } := by
  refine ⟨rfl, rfl, rfl, ?_⟩
  simp [scxrelay_copy_event, logmsg, logthreshold]

/-- C5 witness: the amended transition table evaluated at a concrete
state, write result and short-read count. -/
theorem scxrelay_c5_read_outcome_transitions_witness :
    (0 < 1 ∧ 1 < evsize) ∧
    (scxrelay_copy_event scxrelay_init .eof 0
      = { writes := [], logs := [], state := .SCXSTATE_HALT, died := false } ∧
    scxrelay_copy_event scxrelay_init (.rdError false) 0
      = { writes := [], logs := ["Reading from source device file"],
          state := .SCXSTATE_HALT, died := false } ∧
    scxrelay_copy_event scxrelay_init (.rdError true) 0
      = { writes := [], logs := [], state := .SCXSTATE_HALT, died := false } ∧
    scxrelay_copy_event scxrelay_init (.short 1) 0
      = { writes := [], logs := ["Partial read from source device file"],
          state := .SCXSTATE_HALT, died := false }) :=
  ⟨by decide,
   scxrelay_c5_read_outcome_transitions scxrelay_init 0 1 (by decide) (by decide)⟩

/-- C6: the claim says a source supplied as a pre-opened descriptor with
no path makes the FAILED state idle (200ms sleep, no reopen attempt,
never reaching STEADY on its own).  In fact main records event_path "-"
for the fd-3 convention, so the FAILED branch takes the non-empty-path
arm: it attempts open("-") each iteration with a 100ms sleep, and a
successful open of "-" transitions to STEADY; the 200ms no-reopen arm is
unreachable in this startup mode. -/
theorem scxrelay_c6_fd_mode_still_retries :
    (scxmain_setup [] true false).map ScxRelay.event_path = some "-" ∧
    (scxrelay_step failedFdState { sig := false, poll := .timeout, openRes := -1 }).acts
      = [.openAttempt "-", .sleep100] ∧
    Action.sleep200 ∉
      (scxrelay_step failedFdState { sig := false, poll := .timeout, openRes := -1 }).acts ∧
    (scxrelay_step failedFdState { sig := false, poll := .timeout, openRes := 7 }).s.state
      = .SCXSTATE_STEADY := by
  decide

/-- C8 counterexample: the claim says a failing destroy call at shutdown
is reported.  In a full run in which UI_DEV_DESTROY fails (result -1)
the process exits 0 and emits no output at all: scxrelay_disconnect's
return value is discarded by scxrelay_main and nothing is logged. -/
theorem scxrelay_c8_destroy_failure_unreported :
    (scxmain ["/dev/input/event7"] false false envPlain [sigintInput] (-1)).exit = some 0 ∧
    (scxmain ["/dev/input/event7"] false false envPlain [sigintInput] (-1)).logs = [] ∧
    Action.devDestroy ∈
      (scxmain ["/dev/input/event7"] false false envPlain [sigintInput] (-1)).acts := by
  decide

/-- C8 (amended): deactivation is best-effort and its failure is silently
ignored: scxrelay_disconnect never terminates the process and logs
nothing, and the whole run (exit status included) is unchanged by the
destroy result. -/
theorem scxrelay_c8_destroy_result_ignored (args : List String) (fd3 fd4 : Bool)
    (cenv : ConnectEnv) (inps : List LoopInput) (r : Int) :
    scxrelay_disconnect r = (r, []) ∧
    scxmain args fd3 fd4 cenv inps r = scxmain args fd3 fd4 cenv inps 0 :=
  ⟨rfl, rfl⟩

/-- One STEADY iteration fed a complete record with a successful write:
the record is relayed unless filtered, and the state is unchanged. -/
theorem scxrelay_step_fullInput (s : ScxRelay) (ev : InputEvent)
    (h : s.state = .SCXSTATE_STEADY) :
    scxrelay_step s (fullInput ev) =
      { s := s
        writes := if sysButtonFiltered s.filter_sysbutton ev then [] else [ev]
        logs := [], acts := [], died := false } := by
  unfold scxrelay_step fullInput
  rw [h]
  simp only [Bool.false_eq_true, if_false]
  by_cases hf : sysButtonFiltered s.filter_sysbutton ev
  · simp [scxrelay_copy_event, hf, ← h]
  · simp [scxrelay_copy_event, hf, ← h]

/-- Running the loop from STEADY over complete records relays exactly the
unfiltered records, in order, silently, without leaving STEADY. -/
theorem scxrelay_runLoop_fullInputs (s : ScxRelay) (evs : List InputEvent)
    (h : s.state = .SCXSTATE_STEADY) :
    scxrelay_runLoop s (evs.map fullInput) =
      { s := s
        writes := evs.filter (fun ev => ! sysButtonFiltered s.filter_sysbutton ev)
        logs := [], acts := [], died := false } := by
  induction evs with
  | nil => rfl
  | cons e rest ih =>
    rw [List.map_cons]
    unfold scxrelay_runLoop
    rw [h]
    simp only [reduceCtorEq, if_false]
    rw [scxrelay_step_fullInput s e h]
    by_cases hf : sysButtonFiltered s.filter_sysbutton e
    · simp only [hf, if_true]
      rw [ih]
      simp [hf]
    · simp only [hf, if_false]
      rw [ih]
      simp [hf]

/-- C3: for any sequence of complete records read in STEADY (writes
succeeding), the virtual device receives the same records, unmodified and
in order, except that records matching (EV_KEY, code 10) are dropped when
the filter flag is enabled; the drops are silent and the surviving order
is preserved. -/
theorem scxrelay_c3_steady_relay_filter (s : ScxRelay) (evs : List InputEvent)
    (h : s.state = .SCXSTATE_STEADY) :
    scxrelay_runLoop s (evs.map fullInput) =
      { s := s
        writes := evs.filter (fun ev => ! sysButtonFiltered s.filter_sysbutton ev)
        logs := [], acts := [], died := false } ∧
    (s.filter_sysbutton = 0 →
      (scxrelay_runLoop s (evs.map fullInput)).writes = evs) := by
  refine ⟨scxrelay_runLoop_fullInputs s evs h, fun h0 => ?_⟩
  rw [scxrelay_runLoop_fullInputs s evs h]
  simp [sysButtonFiltered, h0]

/-- C3 witness: with the filter enabled, a (EV_KEY, 10) record is dropped
and an axis record survives; the drop is silent. -/
theorem scxrelay_c3_steady_relay_filter_witness :
    steadyFilterOn.state = .SCXSTATE_STEADY ∧
    scxrelay_runLoop steadyFilterOn ([evKey10, evAxisSample].map fullInput) =
      { s := steadyFilterOn
        writes := [evKey10, evAxisSample].filter
          (fun ev => ! sysButtonFiltered steadyFilterOn.filter_sysbutton ev)
        logs := [], acts := [], died := false } ∧
    [evKey10, evAxisSample].filter
        (fun ev => ! sysButtonFiltered steadyFilterOn.filter_sysbutton ev)
      = [evAxisSample] :=
  ⟨by decide,
   (scxrelay_c3_steady_relay_filter steadyFilterOn [evKey10, evAxisSample] (by decide)).1,
   by decide⟩

/-- C7: from FAILED with a known path, a successful reopen installs the
new source fd and returns to STEADY, and nothing else changes: the uinput
fd and the descriptor are untouched and no create (or descriptor-write)
call is issued. -/
theorem scxrelay_c7_reconnect_frame (s : ScxRelay) (inp : LoopInput) (fd : Int)
    (hst : s.state = .SCXSTATE_FAILED) (hpath : s.event_path ≠ "")
    (hsig : inp.sig = false) (hopen : inp.openRes = fd) (hfd : 0 ≤ fd) :
    scxrelay_step s inp =
      { s := { s with state := .SCXSTATE_STEADY, srcfd := fd }
        writes := [], logs := ["Recovered"]
        acts := [.openAttempt s.event_path], died := false } ∧
    Action.devCreate ∉ (scxrelay_step s inp).acts ∧
    Action.devWriteDesc ∉ (scxrelay_step s inp).acts ∧
    (scxrelay_step s inp).s.uinputfd = s.uinputfd ∧
    (scxrelay_step s inp).s.uidev = s.uidev ∧
    (scxrelay_step s inp).s.filter_sysbutton = s.filter_sysbutton := by
  have hmain : scxrelay_step s inp =
      { s := { s with state := .SCXSTATE_STEADY, srcfd := fd }
        writes := [], logs := ["Recovered"]
        acts := [.openAttempt s.event_path], died := false } := by
    unfold scxrelay_step
    rw [hsig, hst, hopen]
    simp only [Bool.false_eq_true, if_false, hpath, if_pos, ne_eq, not_false_iff]
    rw [if_neg (by omega : ¬ fd < 0)]
  rw [hmain]
  refine ⟨rfl, ?_, ?_, rfl, rfl, rfl⟩
  · intro hmem
    simp at hmem
  · intro hmem
    simp at hmem

/-- C7 witness: the reconnect step evaluated in a concrete FAILED state
with a successful open of fd 7. -/
theorem scxrelay_c7_reconnect_frame_witness :
    (failedPathState.state = .SCXSTATE_FAILED ∧ failedPathState.event_path ≠ "") ∧
    (scxrelay_step failedPathState { sig := false, poll := .timeout, openRes := 7 } =
      { s := { failedPathState with state := .SCXSTATE_STEADY, srcfd := 7 }
        writes := [], logs := ["Recovered"]
        acts := [.openAttempt failedPathState.event_path], died := false } ∧
    Action.devCreate ∉
      (scxrelay_step failedPathState { sig := false, poll := .timeout, openRes := 7 }).acts ∧
    Action.devWriteDesc ∉
      (scxrelay_step failedPathState { sig := false, poll := .timeout, openRes := 7 }).acts ∧
    (scxrelay_step failedPathState { sig := false, poll := .timeout, openRes := 7 }).s.uinputfd
      = failedPathState.uinputfd ∧
    (scxrelay_step failedPathState { sig := false, poll := .timeout, openRes := 7 }).s.uidev
      = failedPathState.uidev ∧
    (scxrelay_step failedPathState { sig := false, poll := .timeout, openRes := 7 }).s.filter_sysbutton
      = failedPathState.filter_sysbutton) :=
  ⟨by decide,
   scxrelay_c7_reconnect_frame failedPathState
     { sig := false, poll := .timeout, openRes := 7 } 7
     (by decide) (by decide) (by decide) (by decide) (by decide)⟩

/-- getD into an all-zero byte vector is zero. -/
theorem getD_replicate_zero (n k : Nat) : (List.replicate n (0 : Nat)).getD k 0 = 0 := by
  induction n generalizing k with
  | zero => simp [List.getD]
  | succ m ih =>
    cases k with
    | zero => rfl
    | succ j => simpa [List.replicate_succ] using ih j

/-- An all-zero bit vector yields no set-bit indices. -/
theorem scxSetBits_replicate_zero (n m : Nat) :
    scxSetBits (List.replicate n 0) m = [] := by
  simp [scxSetBits, getD_replicate_zero, Nat.zero_testBit]

/-- C9: if the EVIOCGBIT query for any of the three capability classes
(event types, axes, keys) returns zero or a negative result, that whole
class is silently skipped: no registration call of that class is issued,
its capability buffer stays untouched, no diagnostic is emitted, the
process does not exit, and connect still proceeds to write the
descriptor and create the virtual device; for a skipped axis class the
calibration table additionally stays all zero. -/
theorem scxrelay_c9_failed_query_silently_skips (s : ScxRelay) (env : ConnectEnv)
    (hsrc : s.srcfd < 0) (hRW : 0 ≤ env.openSrcRW)
    (hui : s.uinputfd < 0) (hUI : 0 ≤ env.openUinput)
    (hreg : ∀ c, 0 ≤ env.regRes c)
    (habsres : ∀ i, 0 ≤ (env.absRes i).1)
    (hw : 0 ≤ env.writeDescRes) (hcr : 0 ≤ env.createRes) :
    (scxrelay_connect s env).isOk = true ∧
    (scxrelay_connect s env).logs = [] ∧
    (scxrelay_connect s env).acts = [.devWriteDesc, .devCreate] ∧
    (env.qev.res ≤ 0 →
      ((scxrelay_connect s env).calls.all (fun c => ! c.isEvBit)) = true ∧
      ((scxrelay_connect s env).okState.map ScxRelay.have_ev) = some s.have_ev) ∧
    (env.qabs.res ≤ 0 →
      ((scxrelay_connect s env).calls.all (fun c => ! c.isAbsBit)) = true ∧
      ((scxrelay_connect s env).okState.map ScxRelay.have_abs) = some s.have_abs) ∧
    (env.qkey.res ≤ 0 →
      ((scxrelay_connect s env).calls.all (fun c => ! c.isKeyBit)) = true ∧
      ((scxrelay_connect s env).okState.map ScxRelay.have_key) = some s.have_key) ∧
    (env.qabs.res ≤ 0 → s.have_abs = List.replicate NBV_ABS 0 →
      ((scxrelay_connect s env).okState.map (fun s1 => s1.uidev.absmin))
        = some (List.replicate ABS_CNT 0)) := by
  have hany : ∀ l : List RegCall, (l.any fun c => decide (env.regRes c < 0)) = false := by
    intro l
    rw [List.any_eq_false]
    intro c _
    have := hreg c
    simp only [decide_eq_true_eq]
    omega
  have hany2 : ∀ l : List Nat, (l.any fun idx => decide ((env.absRes idx).1 < 0)) = false := by
    intro l
    rw [List.any_eq_false]
    intro i _
    have := habsres i
    simp only [decide_eq_true_eq]
    omega
  have hconn : scxrelay_connect s env =
      .ok { (scxrelay_register_features_by_code
              { s with srcfd := env.openSrcRW, uinputfd := env.openUinput }
              env.qev env.qabs env.qkey).1 with
            uidev :=
              (scxSetBits
                  (scxrelay_register_features_by_code
                    { s with srcfd := env.openSrcRW, uinputfd := env.openUinput }
                    env.qev env.qabs env.qkey).1.have_abs NBV_EV).foldl
                (fun u idx => applyAbs u idx (env.absRes idx).2)
                { Uidev.zero with
                  name := SCXRELAY_MODELNAME
                  bustype := BUS_VIRTUAL
                  vendor := SCXRELAY_VENDORID
                  product := SCXRELAY_PRODUCTID
                  version := SCXRELAY_MODELREV } }
          (scxrelay_register_features_by_code
            { s with srcfd := env.openSrcRW, uinputfd := env.openUinput }
            env.qev env.qabs env.qkey).2
          [.devWriteDesc, .devCreate] [] := by
    unfold scxrelay_connect
    simp only [if_pos hsrc, if_neg (show ¬ env.openSrcRW < 0 by omega), if_pos hui,
      if_neg (show ¬ env.openUinput < 0 by omega), hany, hany2, Bool.false_eq_true,
      if_false,
      if_neg (show ¬ env.writeDescRes < 0 by omega),
      if_neg (show ¬ env.createRes < 0 by omega)]
  refine ⟨by rw [hconn]; rfl, by rw [hconn]; rfl, by rw [hconn]; rfl, ?_, ?_, ?_, ?_⟩
  · intro hq
    have hq' : ¬ (0 < env.qev.res) := by omega
    constructor
    · rw [hconn]
      simp only [COut.calls, scxrelay_register_features_by_code, if_neg hq',
        List.all_append, Bool.and_eq_true]
      refine ⟨⟨rfl, ?_⟩, ?_⟩ <;>
      · split
        · simp [List.all_map, Function.comp_def, RegCall.isEvBit]
        · rfl
    · rw [hconn]
      simp [COut.okState, scxrelay_register_features_by_code, if_neg hq']
  · intro hq
    have hq' : ¬ (0 < env.qabs.res) := by omega
    constructor
    · rw [hconn]
      simp only [COut.calls, scxrelay_register_features_by_code, if_neg hq',
        List.all_append, Bool.and_eq_true]
      refine ⟨⟨?_, rfl⟩, ?_⟩ <;>
      · split
        · simp [List.all_map, Function.comp_def, RegCall.isAbsBit]
        · rfl
    · rw [hconn]
      simp [COut.okState, scxrelay_register_features_by_code, if_neg hq']
  · intro hq
    have hq' : ¬ (0 < env.qkey.res) := by omega
    constructor
    · rw [hconn]
      simp only [COut.calls, scxrelay_register_features_by_code, if_neg hq',
        List.all_append, Bool.and_eq_true]
      refine ⟨⟨?_, ?_⟩, rfl⟩ <;>
      · split
        · simp [List.all_map, Function.comp_def, RegCall.isKeyBit]
        · rfl
    · rw [hconn]
      simp [COut.okState, scxrelay_register_features_by_code, if_neg hq']
  · intro hq hz
    have hq' : ¬ (0 < env.qabs.res) := by omega
    have habs' :
        (scxrelay_register_features_by_code
            { s with srcfd := env.openSrcRW, uinputfd := env.openUinput }
            env.qev env.qabs env.qkey).1.have_abs = List.replicate NBV_ABS 0 := by
      simp only [scxrelay_register_features_by_code, if_neg hq']
      exact hz
    rw [hconn]
    simp [COut.okState, habs', scxSetBits_replicate_zero, Uidev.zero]

/-- C9 witness: a source that answers every capability query with 0, in
an otherwise successful environment. -/
theorem scxrelay_c9_failed_query_silently_skips_witness :
    (scxrelay_init.srcfd < 0 ∧ (0 : Int) ≤ envPlain.openSrcRW ∧
     envPlain.qev.res ≤ 0 ∧ envPlain.qabs.res ≤ 0 ∧ envPlain.qkey.res ≤ 0 ∧
     scxrelay_init.have_abs = List.replicate NBV_ABS 0) ∧
    ((scxrelay_connect scxrelay_init envPlain).isOk = true ∧
     (scxrelay_connect scxrelay_init envPlain).logs = [] ∧
     (scxrelay_connect scxrelay_init envPlain).acts = [.devWriteDesc, .devCreate] ∧
     (envPlain.qev.res ≤ 0 →
       ((scxrelay_connect scxrelay_init envPlain).calls.all (fun c => ! c.isEvBit)) = true ∧
       ((scxrelay_connect scxrelay_init envPlain).okState.map ScxRelay.have_ev)
         = some scxrelay_init.have_ev) ∧
     (envPlain.qabs.res ≤ 0 →
       ((scxrelay_connect scxrelay_init envPlain).calls.all (fun c => ! c.isAbsBit)) = true ∧
       ((scxrelay_connect scxrelay_init envPlain).okState.map ScxRelay.have_abs)
         = some scxrelay_init.have_abs) ∧
     (envPlain.qkey.res ≤ 0 →
       ((scxrelay_connect scxrelay_init envPlain).calls.all (fun c => ! c.isKeyBit)) = true ∧
       ((scxrelay_connect scxrelay_init envPlain).okState.map ScxRelay.have_key)
         = some scxrelay_init.have_key) ∧
     (envPlain.qabs.res ≤ 0 → scxrelay_init.have_abs = List.replicate NBV_ABS 0 →
       ((scxrelay_connect scxrelay_init envPlain).okState.map (fun s1 => s1.uidev.absmin))
         = some (List.replicate ABS_CNT 0))) :=
  ⟨by decide,
   scxrelay_c9_failed_query_silently_skips scxrelay_init envPlain
     (by decide) (by decide) (by decide) (by decide)
     (fun c => by simp [envPlain]) (fun i => by simp [envPlain])
     (by decide) (by decide)⟩

/-- One loop iteration never changes the filter flag. -/
theorem scxrelay_step_preserves_filter (s : ScxRelay) (i : LoopInput) :
    (scxrelay_step s i).s.filter_sysbutton = s.filter_sysbutton := by
  unfold scxrelay_step
  split
  · rfl
  · split
    · rfl
    · split
      · rfl
      · dsimp only
        split
        · split
          · rfl
          · split <;> rfl
        · split
          · rfl
          · split <;> rfl
    · split
      · split <;> rfl
      · rfl
    · rfl

/-- The whole loop never changes the filter flag. -/
theorem scxrelay_runLoop_preserves_filter (inps : List LoopInput) (s : ScxRelay) :
    (scxrelay_runLoop s inps).s.filter_sysbutton = s.filter_sysbutton := by
  induction inps generalizing s with
  | nil => rfl
  | cons i is ih =>
    unfold scxrelay_runLoop
    split
    · rfl
    · dsimp only
      split
      · exact scxrelay_step_preserves_filter s i
      · exact (ih _).trans (scxrelay_step_preserves_filter s i)

/-- A successful connect never changes the filter flag. -/
theorem scxrelay_connect_preserves_filter (s : ScxRelay) (env : ConnectEnv) (s1 : ScxRelay)
    (h : (scxrelay_connect s env).okState = some s1) :
    s1.filter_sysbutton = s.filter_sysbutton := by
  simp only [scxrelay_connect] at h
  repeat' split at h
  all_goals simp only [COut.okState, Option.some.injEq, reduceCtorEq] at h
  all_goals rw [← h]
  all_goals rfl

/-- Startup never sets the filter flag: the state memset leaves it zero
and no argument or descriptor convention writes it. -/
theorem scxmain_setup_filter_zero (args : List String) (fd3 fd4 : Bool) (s0 : ScxRelay)
    (h : scxmain_setup args fd3 fd4 = some s0) :
    s0.filter_sysbutton = 0 := by
  simp only [scxmain_setup] at h
  repeat' split at h
  all_goals simp only [Option.some.injEq, reduceCtorEq] at h
  all_goals rw [← h]
  all_goals rfl

/-- C10: in scxrelay the filter flag is zero-initialized and never set by
any startup input, so it is zero in every reachable state: after setup,
after connect, and after any run of the loop; consequently a complete
record read in STEADY — including a (EV_KEY, code 10) record — is always
written to the virtual device (write succeeding). -/
theorem scxrelay_c10_filter_never_enabled (args : List String) (fd3 fd4 : Bool)
    (s0 s1 : ScxRelay) (cenv : ConnectEnv) (inps : List LoopInput) (ev : InputEvent)
    (hsetup : scxmain_setup args fd3 fd4 = some s0)
    (hconn : (scxrelay_connect s0 cenv).okState = some s1) :
    s0.filter_sysbutton = 0 ∧
    s1.filter_sysbutton = 0 ∧
    (scxrelay_mainloop s1 inps).s.filter_sysbutton = 0 ∧
    ((scxrelay_mainloop s1 inps).s.state = .SCXSTATE_STEADY →
      (scxrelay_step (scxrelay_mainloop s1 inps).s (fullInput ev)).writes = [ev]) := by
  have h0 : s0.filter_sysbutton = 0 := scxmain_setup_filter_zero args fd3 fd4 s0 hsetup
  have h1 : s1.filter_sysbutton = 0 :=
    (scxrelay_connect_preserves_filter s0 cenv s1 hconn).trans h0
  have h2 : (scxrelay_mainloop s1 inps).s.filter_sysbutton = 0 := by
    unfold scxrelay_mainloop
    rw [scxrelay_runLoop_preserves_filter]
    exact h1
  refine ⟨h0, h1, h2, fun hsteady => ?_⟩
  rw [scxrelay_step_fullInput _ _ hsteady]
  simp [sysButtonFiltered, h2]

/-- C10 witness: a concrete run started with a path argument, connected
under `envPlain`, with an empty loop trace, fed a (EV_KEY, 10) record. -/
theorem scxrelay_c10_filter_never_enabled_witness :
    (scxmain_setup ["/dev/input/event7"] false false = some setupPathState ∧
     (scxrelay_connect setupPathState envPlain).okState = some connectedState) ∧
    (setupPathState.filter_sysbutton = 0 ∧
     connectedState.filter_sysbutton = 0 ∧
     (scxrelay_mainloop connectedState []).s.filter_sysbutton = 0 ∧
     ((scxrelay_mainloop connectedState []).s.state = .SCXSTATE_STEADY →
       (scxrelay_step (scxrelay_mainloop connectedState []).s (fullInput evKey10)).writes
         = [evKey10])) :=
  ⟨⟨by decide, by decide⟩,
   scxrelay_c10_filter_never_enabled ["/dev/input/event7"] false false
     setupPathState connectedState envPlain [] evKey10 (by decide) (by decide)⟩

/-- C4: the process exit status is 0 exactly when startup inputs were
resolved, connect (activation included) succeeded and the loop ran to the
HALT state without dying; a missing startup input or a failed connect
yields exit status 1. -/
theorem scxrelay_c4_exit_status (args : List String) (fd3 fd4 : Bool)
    (cenv : ConnectEnv) (inps : List LoopInput) (destroyRes : Int) :
    ((scxmain args fd3 fd4 cenv inps destroyRes).exit = some 0 ↔
      (∃ s0 s1, scxmain_setup args fd3 fd4 = some s0 ∧
        (scxrelay_connect s0 cenv).okState = some s1 ∧
        (scxrelay_mainloop s1 inps).died = false ∧
        (scxrelay_mainloop s1 inps).s.state = .SCXSTATE_HALT)) ∧
    (scxmain_setup args fd3 fd4 = none →
      (scxmain args fd3 fd4 cenv inps destroyRes).exit = some 1) ∧
    (∀ s0, scxmain_setup args fd3 fd4 = some s0 →
      (scxrelay_connect s0 cenv).isOk = false →
      (scxmain args fd3 fd4 cenv inps destroyRes).exit = some 1) := by
  cases hs : scxmain_setup args fd3 fd4 with
  | none =>
    refine ⟨by simp [scxmain, hs], fun _ => by simp [scxmain, hs],
      fun s0 hsx _ => absurd hsx (by simp)⟩
  | some s0 =>
    cases hc : scxrelay_connect s0 cenv with
    | died logs =>
      refine ⟨?_, fun hn => absurd hn (by simp), ?_⟩
      · simp [scxmain, hs, hc, COut.okState]
      · intro s0x hsx _
        injection hsx with hsx
        subst hsx
        simp [scxmain, hs, hc]
    | err serr logs =>
      refine ⟨?_, fun hn => absurd hn (by simp), ?_⟩
      · simp [scxmain, hs, hc, COut.okState]
      · intro s0x hsx _
        injection hsx with hsx
        subst hsx
        simp [scxmain, hs, hc]
    | ok s1 calls acts logs =>
      refine ⟨?_, fun hn => absurd hn (by simp), ?_⟩
      · by_cases hd : (scxrelay_mainloop s1 inps).died
        · simp [scxmain, hs, hc, hd, COut.okState]
        · by_cases hh : (scxrelay_mainloop s1 inps).s.state = .SCXSTATE_HALT
          · simp [scxmain, hs, hc, hd, hh, COut.okState, scxrelay_disconnect]
          · simp [scxmain, hs, hc, hd, hh, COut.okState]
      · intro s0x hsx hko
        injection hsx with hsx
        subst hsx
        rw [hc] at hko
        simp [COut.isOk] at hko

/-- C4 witness: a concrete successful run — path argument given, connect
succeeding, loop terminated by SIGINT — exits 0. -/
theorem scxrelay_c4_exit_status_witness :
    (scxmain ["/dev/input/event7"] false false envPlain [sigintInput] 0).exit = some 0 :=
  (scxrelay_c4_exit_status ["/dev/input/event7"] false false envPlain [sigintInput] 0).1.mpr
    ⟨setupPathState, connectedState, by decide, by decide, by decide, by decide⟩

end SCX
